import Mathlib

/-
Shallow embedding of the 5x5 WS2812B LED-matrix rendering engine of
src/lib/matrizRGB.c (with src/lib/matrizRGB.h).

Modelling decisions:
* `uint8_t` channel values are `Nat` (claims that quantify over channel
  inputs carry explicit `≤ 255` bounds where the fact matters).
* C `int` coordinates and indices are `Int`.
* C `float` quantities (the intensity parameter, the dominance test
  `(float)max_val / (float)min_val > color_dominance_ratio`) are modelled
  over `ℚ`; the values the spec and claims exercise (0, 1, 8.0, small
  integer quotients) are exact in binary floating point, so the `ℚ` model
  agrees with the C float computation on them.
* The gamma lookup table `gamma_table` is filled by `powf`, a transcendental
  float computation; it is kept abstract as a function `Nat → Nat` carried
  in the state, together with the `gamma_table_initialized` flag
  (field `gammaTableBuilt`).
* The global LED buffer `npLED_t leds[NP_LED_COUNT]` is a `List npLED`
  carried in `MatrixState`.
* A call to `npWrite` (Transmitter.flush) is observable: every drawing
  primitive returns, next to the new state, the list of flush events it
  performed, each event being the byte stream `npWrite` pushes to the PIO
  (slot 0 G, R, B, slot 1 G, R, B, ...).
-/

/-- One RGB color in natural order, mirroring `npColor_t` (r, g, b). -/
structure npColor where
  r : Nat
  g : Nat
  b : Nat
  deriving DecidableEq

/-- One LED slot in wire order, mirroring `npLED_t` (G, R, B). -/
structure npLED where
  G : Nat
  R : Nat
  B : Nat
  deriving DecidableEq

/-- Mirrors `ColorCorrectionConfig` from matrizRGB.c.  The field `dominance`
models the source field `color_dominance_ratio`; `gamma` is carried only as
data (the gamma table itself is abstract). -/
structure ColorCorrectionConfig where
  gamma : ℚ
  noise_threshold : Nat
  dominance : ℚ
  enable_gamma_correction : Bool
  enable_noise_filter : Bool
  enable_color_purification : Bool
  deriving DecidableEq

/-- The default `color_config` initializer of matrizRGB.c: gamma 2.2,
noise threshold 15, dominance 8.0, all three stages enabled. -/
def defaultConfig : ColorCorrectionConfig :=
  ⟨22 / 10, 15, 8, true, true, true⟩

/-- The process state: the LED buffer plus the correction configuration and
the (abstract) gamma table with its built flag. -/
structure MatrixState where
  leds : List npLED
  config : ColorCorrectionConfig
  gammaTable : Nat → Nat
  gammaTableBuilt : Bool

/-- `applyGamma` from matrizRGB.c: table lookup only when gamma correction
is enabled and the table has been built. -/
def applyGamma (cfg : ColorCorrectionConfig) (gt : Nat → Nat) (built : Bool)
    (v : Nat) : Nat :=
  if cfg.enable_gamma_correction && built then gt v else v

/-- `getIndex` from matrizRGB.c: zig-zag map from (x, y) to the slot index,
with `NP_LED_COUNT = 25` and `NP_MATRIX_WIDTH = 5`. -/
def getIndex (x y : Int) : Int :=
  if y % 2 = 0 then (25 - 1) - (y * 5 + x)
  else (25 - 1) - (y * 5 + (5 - 1 - x))

/-- `npIsPositionValid` from matrizRGB.c. -/
def npIsPositionValid (x y : Int) : Prop :=
  0 ≤ x ∧ x < 5 ∧ 0 ≤ y ∧ y < 5

instance (x y : Int) : Decidable (npIsPositionValid x y) :=
  inferInstanceAs (Decidable (0 ≤ x ∧ x < 5 ∧ 0 ≤ y ∧ y < 5))

/-- `clampIntensity` from matrizRGB.c, over the rational model of float. -/
def clampIntensity (value : ℚ) : ℚ :=
  if value < 0 then 0 else if value > 1 then 1 else value

/-- The truncating cast `(uint8_t)(channel * intensity)`.  All call sites
clamp the intensity to [0, 1] first, so the product is nonnegative and the
C truncation toward zero coincides with the floor. -/
def scaleChannel (v : Nat) (i : ℚ) : Nat :=
  (⌊(v : ℚ) * i⌋).toNat

/-- Intensity scaling applied to all three channels of a color. -/
def scaleColor (c : npColor) (i : ℚ) : npColor :=
  ⟨scaleChannel c.r i, scaleChannel c.g i, scaleChannel c.b i⟩

/-- The per-channel body of stage 1 of `processColor`:
`if (ch < noise_threshold && ch > 0) ch = 0;`. -/
def noiseCh (cfg : ColorCorrectionConfig) (v : Nat) : Nat :=
  if v < cfg.noise_threshold ∧ v > 0 then 0 else v

/-- Stage 1 of `processColor` (noise filter), guarded by
`enable_noise_filter` as in the source. -/
def noiseFilter (cfg : ColorCorrectionConfig) (c : npColor) : npColor :=
  if cfg.enable_noise_filter then
    ⟨noiseCh cfg c.r, noiseCh cfg c.g, noiseCh cfg c.b⟩
  else c

/-- The `max_val` computation of `processColor`.  In the source the blue
comparison's branch is the expression statement `b_final;`, which has no
effect, so `max_val` only ever tracks the red and green channels:
`max_val = r; if (g > max_val) max_val = g; if (b > max_val) /* no-op */;`. -/
def maxValRG (r g : Nat) : Nat :=
  if g > r then g else r

/-- The `min_val` computation of `processColor`:
`min_val = r; if (g < min_val) min_val = g; if (b < min_val) min_val = b;`. -/
def minValRGB (r g b : Nat) : Nat :=
  let m := if g < r then g else r
  if b < m then b else m

/-- The dominant-color zeroing of stage 2 of `processColor`: guarded by
`max_val > 100 && min_val > 0`, then by
`(float)max_val / (float)min_val > color_dominance_ratio`; the channel
equal to `max_val` (tested in the order r, g, b) is kept and each other
channel below `max_val / 4` (integer division) is zeroed. -/
def purifyCore (cfg : ColorCorrectionConfig) (c : npColor) : npColor :=
  let max_val := maxValRG c.r c.g
  let min_val := minValRGB c.r c.g c.b
  if max_val > 100 ∧ min_val > 0 then
    if (max_val : ℚ) / (min_val : ℚ) > cfg.dominance then
      if c.r = max_val then
        ⟨c.r,
         if c.g < max_val / 4 then 0 else c.g,
         if c.b < max_val / 4 then 0 else c.b⟩
      else if c.g = max_val then
        ⟨if c.r < max_val / 4 then 0 else c.r,
         c.g,
         if c.b < max_val / 4 then 0 else c.b⟩
      else if c.b = max_val then
        ⟨if c.r < max_val / 4 then 0 else c.r,
         if c.g < max_val / 4 then 0 else c.g,
         c.b⟩
      else c
    else c
  else c

/-- The white-snap special case at the end of stage 2 of `processColor`:
`if (r > 240 && g > 240 && b > 240) r = g = b = 255;`. -/
def whiteSnap (c : npColor) : npColor :=
  if c.r > 240 ∧ c.g > 240 ∧ c.b > 240 then ⟨255, 255, 255⟩ else c

/-- Stage 2 of `processColor` (dominant-color purification followed by the
white snap), guarded by `enable_color_purification` as in the source. -/
def purify (cfg : ColorCorrectionConfig) (c : npColor) : npColor :=
  if cfg.enable_color_purification then whiteSnap (purifyCore cfg c) else c

/-- `processColor` from matrizRGB.c: noise filter, then purification, then
gamma on each channel. -/
def processColor (cfg : ColorCorrectionConfig) (gt : Nat → Nat) (built : Bool)
    (r g b : Nat) : npColor :=
  let c1 := noiseFilter cfg ⟨r, g, b⟩
  let c2 := purify cfg c1
  ⟨applyGamma cfg gt built c2.r,
   applyGamma cfg gt built c2.g,
   applyGamma cfg gt built c2.b⟩

/-- Storing a color into one slot of the buffer in wire order:
`leds[i].R = p.r; leds[i].G = p.g; leds[i].B = p.b;`. -/
def writeSlot (leds : List npLED) (i : Nat) (p : npColor) : List npLED :=
  leds.set i ⟨p.g, p.r, p.b⟩

/-- The byte stream `npWrite` pushes to the PIO: for each slot in index
order, its G byte, then its R byte, then its B byte. -/
def npWrite (leds : List npLED) : List Nat :=
  leds.flatMap fun l => [l.G, l.R, l.B]

/-- The common tail of every group/whole-matrix primitive: store the new
buffer and perform the single `npWrite()` call (the flush event carries the
byte stream of the buffer just stored). -/
def flushed (s : MatrixState) (l : List npLED) :
    MatrixState × List (List Nat) :=
  ({ s with leds := l }, [npWrite l])

/-- `npSetLED`: single pixel with correction; no flush. -/
def npSetLED (s : MatrixState) (x y : Int) (color : npColor) :
    MatrixState × List (List Nat) :=
  if npIsPositionValid x y then
    let p := processColor s.config s.gammaTable s.gammaTableBuilt
      color.r color.g color.b
    ({ s with leds := writeSlot s.leds (getIndex x y).toNat p }, [])
  else (s, [])

/-- `npSetLEDRaw`: single pixel, raw values, no correction; no flush. -/
def npSetLEDRaw (s : MatrixState) (x y : Int) (color : npColor) :
    MatrixState × List (List Nat) :=
  if npIsPositionValid x y then
    ({ s with leds := writeSlot s.leds (getIndex x y).toNat color }, [])
  else (s, [])

/-- `npSetLEDIntensity`: single pixel, intensity scaling before correction;
no flush. -/
def npSetLEDIntensity (s : MatrixState) (x y : Int) (color : npColor)
    (intensity : ℚ) : MatrixState × List (List Nat) :=
  if npIsPositionValid x y then
    let i2 := clampIntensity intensity
    let p := processColor s.config s.gammaTable s.gammaTableBuilt
      (scaleChannel color.r i2) (scaleChannel color.g i2)
      (scaleChannel color.b i2)
    ({ s with leds := writeSlot s.leds (getIndex x y).toNat p }, [])
  else (s, [])

/-- `npSetRow`: one corrected color written to the five slots of a row,
then one flush. -/
def npSetRow (s : MatrixState) (row : Int) (color : npColor) :
    MatrixState × List (List Nat) :=
  if 0 ≤ row ∧ row < 5 then
    let p := processColor s.config s.gammaTable s.gammaTableBuilt
      color.r color.g color.b
    let leds2 := (List.range 5).foldl
      (fun ls x => writeSlot ls (getIndex (x : Int) row).toNat p) s.leds
    flushed s leds2
  else (s, [])

/-- `npSetRowIntensity`: intensity-scaled row write, then one flush. -/
def npSetRowIntensity (s : MatrixState) (row : Int) (color : npColor)
    (intensity : ℚ) : MatrixState × List (List Nat) :=
  if 0 ≤ row ∧ row < 5 then
    let i2 := clampIntensity intensity
    let p := processColor s.config s.gammaTable s.gammaTableBuilt
      (scaleChannel color.r i2) (scaleChannel color.g i2)
      (scaleChannel color.b i2)
    let leds2 := (List.range 5).foldl
      (fun ls x => writeSlot ls (getIndex (x : Int) row).toNat p) s.leds
    flushed s leds2
  else (s, [])

/-- `npSetColumn`: one corrected color written to the five slots of a
column, then one flush. -/
def npSetColumn (s : MatrixState) (col : Int) (color : npColor) :
    MatrixState × List (List Nat) :=
  if 0 ≤ col ∧ col < 5 then
    let p := processColor s.config s.gammaTable s.gammaTableBuilt
      color.r color.g color.b
    let leds2 := (List.range 5).foldl
      (fun ls y => writeSlot ls (getIndex col (y : Int)).toNat p) s.leds
    flushed s leds2
  else (s, [])

/-- `npSetColumnIntensity`: intensity-scaled column write, then one flush. -/
def npSetColumnIntensity (s : MatrixState) (col : Int) (color : npColor)
    (intensity : ℚ) : MatrixState × List (List Nat) :=
  if 0 ≤ col ∧ col < 5 then
    let i2 := clampIntensity intensity
    let p := processColor s.config s.gammaTable s.gammaTableBuilt
      (scaleChannel color.r i2) (scaleChannel color.g i2)
      (scaleChannel color.b i2)
    let leds2 := (List.range 5).foldl
      (fun ls y => writeSlot ls (getIndex col (y : Int)).toNat p) s.leds
    flushed s leds2
  else (s, [])

/-- `npSetBorder`: top and bottom rows (per x: top then bottom), then the
inner left and right column cells (per y in 1..3: left then right), then
one flush. -/
def npSetBorder (s : MatrixState) (color : npColor) :
    MatrixState × List (List Nat) :=
  let p := processColor s.config s.gammaTable s.gammaTableBuilt
    color.r color.g color.b
  let l1 := (List.range 5).foldl
    (fun ls x =>
      writeSlot (writeSlot ls (getIndex (x : Int) 0).toNat p)
        (getIndex (x : Int) 4).toNat p) s.leds
  let l2 := (List.range 3).foldl
    (fun ls k =>
      writeSlot (writeSlot ls (getIndex 0 ((k : Int) + 1)).toNat p)
        (getIndex 4 ((k : Int) + 1)).toNat p) l1
  flushed s l2

/-- `npSetDiagonal`: the main diagonal (i, i) or the secondary diagonal
(4 - i, i), then one flush. -/
def npSetDiagonal (s : MatrixState) (mainDiagonal : Bool) (color : npColor) :
    MatrixState × List (List Nat) :=
  let p := processColor s.config s.gammaTable s.gammaTableBuilt
    color.r color.g color.b
  let leds2 := (List.range 5).foldl
    (fun ls i =>
      writeSlot ls
        (if mainDiagonal then (getIndex (i : Int) (i : Int)).toNat
         else (getIndex (5 - 1 - (i : Int)) (i : Int)).toNat) p) s.leds
  flushed s leds2

/-- `npFill`: one corrected color written to all 25 slots, then one flush. -/
def npFill (s : MatrixState) (color : npColor) :
    MatrixState × List (List Nat) :=
  let p := processColor s.config s.gammaTable s.gammaTableBuilt
    color.r color.g color.b
  let leds2 := (List.range 25).foldl (fun ls i => writeSlot ls i p) s.leds
  flushed s leds2

/-- `npFillRGBRaw`: raw values written to all 25 slots, no correction, then
one flush. -/
def npFillRGBRaw (s : MatrixState) (r g b : Nat) :
    MatrixState × List (List Nat) :=
  let leds2 := (List.range 25).foldl
    (fun ls i => writeSlot ls i ⟨r, g, b⟩) s.leds
  flushed s leds2

/-- `npFillIntensity`: intensity-scaled corrected fill, then one flush. -/
def npFillIntensity (s : MatrixState) (color : npColor) (intensity : ℚ) :
    MatrixState × List (List Nat) :=
  let i2 := clampIntensity intensity
  let p := processColor s.config s.gammaTable s.gammaTableBuilt
    (scaleChannel color.r i2) (scaleChannel color.g i2)
    (scaleChannel color.b i2)
  let leds2 := (List.range 25).foldl (fun ls i => writeSlot ls i p) s.leds
  flushed s leds2

/-- The per-entry cast `(uint8_t)(float)(matriz[...][k] * intensity)` of
`npSetMatrixWithIntensity`: the entry is a C `int`, so the 8-bit cast wraps
(modelled as reduction mod 256, per the spec's frame input format). -/
def scaleMatrixEntry (v : Int) (i : ℚ) : Nat :=
  ((⌊(v : ℚ) * i⌋) % 256).toNat

/-- `npSetMatrixWithIntensity`: every cell (row-major, per-cell correction
after scaling), then one flush. -/
def npSetMatrixWithIntensity (s : MatrixState)
    (m : Fin 5 → Fin 5 → Fin 3 → Int) (intensity : ℚ) :
    MatrixState × List (List Nat) :=
  let i2 := clampIntensity intensity
  let leds2 := (List.finRange 5).foldl
    (fun ls linha =>
      (List.finRange 5).foldl
        (fun ls2 coluna =>
          writeSlot ls2 (getIndex (coluna : Int) (linha : Int)).toNat
            (processColor s.config s.gammaTable s.gammaTableBuilt
              (scaleMatrixEntry (m linha coluna 0) i2)
              (scaleMatrixEntry (m linha coluna 1) i2)
              (scaleMatrixEntry (m linha coluna 2) i2)))
        ls) s.leds
  flushed s leds2

/-- A concrete state used to instantiate hypotheses: the cleared 25-slot
buffer with the default configuration; the abstract gamma table is taken to
be the identity (any table would do for instantiation purposes). -/
def initState : MatrixState :=
  ⟨List.replicate 25 ⟨0, 0, 0⟩, defaultConfig, fun v => v, true⟩

/-! ### Helper lemmas -/

lemma npIsPositionValid_def (x y : Int) :
    npIsPositionValid x y ↔ 0 ≤ x ∧ x < 5 ∧ 0 ≤ y ∧ y < 5 := Iff.rfl

lemma getIndex_toNat_lt (x y : Int) (h : npIsPositionValid x y) :
    (getIndex x y).toNat < 25 := by
  obtain ⟨h1, h2, h3, h4⟩ := (npIsPositionValid_def x y).mp h
  unfold getIndex
  split_ifs with hpar <;> omega

lemma noiseCh_eq (cfg : ColorCorrectionConfig) (v : Nat) :
    noiseCh cfg v = if 0 < v ∧ v < cfg.noise_threshold then 0 else v := by
  unfold noiseCh
  by_cases h1 : v < cfg.noise_threshold <;> by_cases h2 : 0 < v <;>
    simp [h1, h2]

/-- Claim C2: on the 5×5 grid, `getIndex` agrees with the spec formula
((25-1) - (y·5+x) for even y, (25-1) - (y·5+(5-1-x)) for odd y), is
injective, always lands in [0, 25), and attains every index of [0, 25):
a bijection from valid coordinates onto the slot indices. -/
theorem C2_getIndex_zigzag_bijection :
    (∀ x : Nat, x < 5 → ∀ y : Nat, y < 5 →
      getIndex x y =
        if (y : Int) % 2 = 0 then (25 - 1) - ((y : Int) * 5 + (x : Int))
        else (25 - 1) - ((y : Int) * 5 + (5 - 1 - (x : Int))))
    ∧ (∀ x1 : Nat, x1 < 5 → ∀ y1 : Nat, y1 < 5 →
        ∀ x2 : Nat, x2 < 5 → ∀ y2 : Nat, y2 < 5 →
        getIndex x1 y1 = getIndex x2 y2 → x1 = x2 ∧ y1 = y2)
    ∧ (∀ x : Nat, x < 5 → ∀ y : Nat, y < 5 →
        0 ≤ getIndex x y ∧ getIndex x y < 25)
    ∧ (∀ n : Nat, n < 25 →
        ∃ x : Nat, x < 5 ∧ ∃ y : Nat, y < 5 ∧ getIndex x y = (n : Int)) := by
  refine ⟨by decide, ?_, by decide, by decide⟩
  have h0 : ∀ x1 : Nat, x1 < 5 → ∀ y1 : Nat, y1 < 5 →
      ∀ x2 : Nat, x2 < 5 → ∀ y2 : Nat, y2 < 5 →
      (getIndex x1 y1 ≠ getIndex x2 y2 ∨ (x1 = x2 ∧ y1 = y2)) := by decide
  intro x1 h1 y1 h2 x2 h3 y2 h4 heq
  rcases h0 x1 h1 y1 h2 x2 h3 y2 h4 with h | h
  · exact absurd heq h
  · exact h

/-- Witness for C2 at slot index 7. -/
theorem C2_witness :
    (7 : Nat) < 25 ∧
      (∃ x : Nat, x < 5 ∧ ∃ y : Nat, y < 5 ∧ getIndex x y = ((7 : Nat) : Int)) :=
  ⟨by decide, C2_getIndex_zigzag_bijection.2.2.2 7 (by decide)⟩

/-- Claim C3: with the noise filter enabled, each channel of the input is
independently zeroed exactly when 0 < value < threshold (a value of 0, of
exactly the threshold, or above is untouched); `processColor` feeds this
filtered triple to the remaining stages; with the default threshold 15 the
inputs (5,5,5) and (0,5,20) become (0,0,0) and (0,0,20). -/
theorem C3_noise_filter_rule :
    (∀ cfg : ColorCorrectionConfig, cfg.enable_noise_filter = true →
      ∀ r g b : Nat,
        noiseFilter cfg ⟨r, g, b⟩ =
          ⟨if 0 < r ∧ r < cfg.noise_threshold then 0 else r,
           if 0 < g ∧ g < cfg.noise_threshold then 0 else g,
           if 0 < b ∧ b < cfg.noise_threshold then 0 else b⟩)
    ∧ (∀ cfg : ColorCorrectionConfig, cfg.enable_noise_filter = true →
        ∀ (gt : Nat → Nat) (built : Bool) (r g b : Nat),
        processColor cfg gt built r g b =
          processColor { cfg with enable_noise_filter := false } gt built
            (if 0 < r ∧ r < cfg.noise_threshold then 0 else r)
            (if 0 < g ∧ g < cfg.noise_threshold then 0 else g)
            (if 0 < b ∧ b < cfg.noise_threshold then 0 else b))
    ∧ noiseFilter defaultConfig ⟨5, 5, 5⟩ = ⟨0, 0, 0⟩
    ∧ noiseFilter defaultConfig ⟨0, 5, 20⟩ = ⟨0, 0, 20⟩ := by
  have h1 : ∀ cfg : ColorCorrectionConfig, cfg.enable_noise_filter = true →
      ∀ r g b : Nat,
      noiseFilter cfg ⟨r, g, b⟩ =
        ⟨if 0 < r ∧ r < cfg.noise_threshold then 0 else r,
         if 0 < g ∧ g < cfg.noise_threshold then 0 else g,
         if 0 < b ∧ b < cfg.noise_threshold then 0 else b⟩ := by
    intro cfg hn r g b
    simp [noiseFilter, hn, noiseCh_eq]
  refine ⟨h1, ?_, by decide, by decide⟩
  intro cfg hn gt built r g b
  simp only [processColor]
  rw [h1 cfg hn r g b]
  have h2 : noiseFilter { cfg with enable_noise_filter := false }
      (⟨if 0 < r ∧ r < cfg.noise_threshold then 0 else r,
        if 0 < g ∧ g < cfg.noise_threshold then 0 else g,
        if 0 < b ∧ b < cfg.noise_threshold then 0 else b⟩ : npColor) =
      ⟨if 0 < r ∧ r < cfg.noise_threshold then 0 else r,
       if 0 < g ∧ g < cfg.noise_threshold then 0 else g,
       if 0 < b ∧ b < cfg.noise_threshold then 0 else b⟩ := by
    simp [noiseFilter]
  rw [h2]
  rfl

/-- Witness for C3 at the default configuration and input (0, 5, 20). -/
theorem C3_witness :
    defaultConfig.enable_noise_filter = true ∧
      noiseFilter defaultConfig ⟨0, 5, 20⟩ =
        ⟨if 0 < 0 ∧ 0 < defaultConfig.noise_threshold then 0 else 0,
         if 0 < 5 ∧ 5 < defaultConfig.noise_threshold then 0 else 5,
         if 0 < 20 ∧ 20 < defaultConfig.noise_threshold then 0 else 20⟩ :=
  ⟨by decide, C3_noise_filter_rule.1 defaultConfig (by decide) 0 5 20⟩

/-- Claim C5: after `npSetLEDRaw` at a valid coordinate, reading the slot
`getIndex x y` back yields exactly the written color (wire order G, R, B
holding g, r, b), with no correction stage applied, whatever the current
configuration and gamma table in the state. -/
theorem C5_raw_roundtrip (s : MatrixState) (hlen : s.leds.length = 25)
    (x y : Int) (hv : npIsPositionValid x y) (c : npColor) :
    ((npSetLEDRaw s x y c).1.leds).getD (getIndex x y).toNat ⟨0, 0, 0⟩ =
      ⟨c.g, c.r, c.b⟩ := by
  unfold npSetLEDRaw
  rw [if_pos hv]
  have hb : (getIndex x y).toNat < s.leds.length := by
    rw [hlen]; exact getIndex_toNat_lt x y hv
  simp [writeSlot, List.getD_eq_getElem?_getD, List.getElem?_set_self hb]

/-- Witness for C5 at the cleared state, coordinate (1, 2), color (9, 8, 7). -/
theorem C5_witness :
    ((npSetLEDRaw initState 1 2 ⟨9, 8, 7⟩).1.leds).getD
        (getIndex 1 2).toNat ⟨0, 0, 0⟩ = ⟨8, 9, 7⟩ :=
  C5_raw_roundtrip initState (by decide) 1 2 (by decide) ⟨9, 8, 7⟩

/-- Claim C6: out-of-range coordinates make the single-pixel primitives
complete no-ops (state unchanged, no flush event, nothing signalled), and an
out-of-range row or column index makes the row/column primitives complete
no-ops as well. -/
theorem C6_out_of_range_noop :
    (∀ s x y c, ¬ npIsPositionValid x y → npSetLED s x y c = (s, []))
    ∧ (∀ s x y c, ¬ npIsPositionValid x y → npSetLEDRaw s x y c = (s, []))
    ∧ (∀ s x y c i, ¬ npIsPositionValid x y →
        npSetLEDIntensity s x y c i = (s, []))
    ∧ (∀ s row c, ¬ (0 ≤ row ∧ row < 5) → npSetRow s row c = (s, []))
    ∧ (∀ s row c i, ¬ (0 ≤ row ∧ row < 5) →
        npSetRowIntensity s row c i = (s, []))
    ∧ (∀ s col c, ¬ (0 ≤ col ∧ col < 5) → npSetColumn s col c = (s, []))
    ∧ (∀ s col c i, ¬ (0 ≤ col ∧ col < 5) →
        npSetColumnIntensity s col c i = (s, [])) := by
  refine ⟨?_, ?_, ?_, ?_, ?_, ?_, ?_⟩ <;>
    intros <;>
    first
      | (unfold npSetLED; rw [if_neg]; assumption)
      | (unfold npSetLEDRaw; rw [if_neg]; assumption)
      | (unfold npSetLEDIntensity; rw [if_neg]; assumption)
      | (unfold npSetRow; rw [if_neg]; assumption)
      | (unfold npSetRowIntensity; rw [if_neg]; assumption)
      | (unfold npSetColumn; rw [if_neg]; assumption)
      | (unfold npSetColumnIntensity; rw [if_neg]; assumption)

/-- Witness for C6 at the cleared state and coordinate (5, 0). -/
theorem C6_witness :
    ¬ npIsPositionValid 5 0 ∧ npSetLED initState 5 0 ⟨1, 2, 3⟩ = (initState, []) :=
  ⟨by decide, C6_out_of_range_noop.1 initState 5 0 ⟨1, 2, 3⟩ (by decide)⟩

/-- Claim C1 (refuted by the code): at the post-noise-filter input
(r, g, b) = (20, 20, 200) the claim's hypotheses hold (the maximum over the
three channels is 200 > 100, the minimum is 20 > 0, and 200/20 = 10 exceeds
the default dominance value 8), so the claim predicts that blue is
identified as the dominant channel and red and green (both < 200/4) are
zeroed, giving (0, 0, 200).  The code's `max_val`, however, ignores the
blue channel (the source's blue branch is the no-effect statement
`b_final;`), so `max_val = 20`, the `max_val > 100` guard fails, and the
purification stage leaves the color unchanged. -/
theorem C1_blue_dominant_code_eval :
    maxValRG 20 20 = 20
    ∧ minValRGB 20 20 200 = 20
    ∧ noiseFilter defaultConfig ⟨20, 20, 200⟩ = ⟨20, 20, 200⟩
    ∧ defaultConfig.enable_color_purification = true
    ∧ purify defaultConfig ⟨20, 20, 200⟩ = ⟨20, 20, 200⟩
    ∧ purify defaultConfig ⟨20, 20, 200⟩ ≠ ⟨0, 0, 200⟩ := by
  decide

/-- Claim C7: with purification enabled, whenever all three channels exceed
240 after the noise filter (8-bit values, so also ≤ 255), the pre-gamma
result of the purification stage is (255, 255, 255), whatever the noise
threshold and whatever the outcome of the dominance-ratio test. -/
theorem C7_white_snap (cfg : ColorCorrectionConfig)
    (hp : cfg.enable_color_purification = true)
    (r g b : Nat) (hr2 : r ≤ 255) (hg2 : g ≤ 255) (hb2 : b ≤ 255)
    (hr : 240 < r) (hg : 240 < g) (hb : 240 < b) :
    purify cfg ⟨r, g, b⟩ = ⟨255, 255, 255⟩ := by
  have hmax1 : 241 ≤ maxValRG r g := by unfold maxValRG; split <;> omega
  have hmax2 : maxValRG r g ≤ 255 := by unfold maxValRG; split <;> omega
  have hmin1 : 0 < minValRGB r g b := by
    unfold minValRGB; dsimp only; split_ifs <;> omega
  have h4 : maxValRG r g / 4 ≤ 63 := by omega
  have hcore : purifyCore cfg ⟨r, g, b⟩ = ⟨r, g, b⟩ := by
    unfold purifyCore
    dsimp only
    rw [if_pos ⟨by omega, hmin1⟩]
    split_ifs <;> first | rfl | (exfalso; omega)
  have hsnap : whiteSnap ⟨r, g, b⟩ = ⟨255, 255, 255⟩ := by
    unfold whiteSnap
    rw [if_pos ⟨hr, hg, hb⟩]
  unfold purify
  rw [hp, if_pos rfl, hcore, hsnap]

/-- Witness for C7 at the default configuration and input (245, 245, 245). -/
theorem C7_witness :
    defaultConfig.enable_color_purification = true ∧
      purify defaultConfig ⟨245, 245, 245⟩ = ⟨255, 255, 255⟩ :=
  ⟨by decide, C7_white_snap defaultConfig (by decide) 245 245 245
    (by decide) (by decide) (by decide) (by decide) (by decide) (by decide)⟩

/-- Claim C4: the three single-pixel primitives emit no flush event at all,
while each group/whole-matrix primitive, on in-range arguments, emits
exactly one flush event, and that event is the serialization of its final
buffer (i.e. the flush happens after all slots of the shape are written). -/
theorem C4_flush_policy :
    (∀ s x y c, (npSetLED s x y c).2 = [])
    ∧ (∀ s x y c, (npSetLEDRaw s x y c).2 = [])
    ∧ (∀ s x y c i, (npSetLEDIntensity s x y c i).2 = [])
    ∧ (∀ s row c, 0 ≤ row → row < 5 →
        (npSetRow s row c).2 = [npWrite (npSetRow s row c).1.leds])
    ∧ (∀ s row c i, 0 ≤ row → row < 5 →
        (npSetRowIntensity s row c i).2 =
          [npWrite (npSetRowIntensity s row c i).1.leds])
    ∧ (∀ s col c, 0 ≤ col → col < 5 →
        (npSetColumn s col c).2 = [npWrite (npSetColumn s col c).1.leds])
    ∧ (∀ s col c i, 0 ≤ col → col < 5 →
        (npSetColumnIntensity s col c i).2 =
          [npWrite (npSetColumnIntensity s col c i).1.leds])
    ∧ (∀ s c, (npSetBorder s c).2 = [npWrite (npSetBorder s c).1.leds])
    ∧ (∀ s d c, (npSetDiagonal s d c).2 =
        [npWrite (npSetDiagonal s d c).1.leds])
    ∧ (∀ s c, (npFill s c).2 = [npWrite (npFill s c).1.leds])
    ∧ (∀ s r g b, (npFillRGBRaw s r g b).2 =
        [npWrite (npFillRGBRaw s r g b).1.leds])
    ∧ (∀ s c i, (npFillIntensity s c i).2 =
        [npWrite (npFillIntensity s c i).1.leds])
    ∧ (∀ s m i, (npSetMatrixWithIntensity s m i).2 =
        [npWrite (npSetMatrixWithIntensity s m i).1.leds]) := by
  have hfl : ∀ (s : MatrixState) (l : List npLED),
      (flushed s l).2 = [npWrite (flushed s l).1.leds] := fun _ _ => rfl
  refine ⟨?_, ?_, ?_, ?_, ?_, ?_, ?_, ?_, ?_, ?_, ?_, ?_, ?_⟩ <;> intros
  · unfold npSetLED; split <;> rfl
  · unfold npSetLEDRaw; split <;> rfl
  · unfold npSetLEDIntensity; split <;> rfl
  · rename_i s row c h1 h2
    unfold npSetRow
    rw [if_pos ⟨h1, h2⟩]
    exact hfl _ _
  · rename_i s row c i h1 h2
    unfold npSetRowIntensity
    rw [if_pos ⟨h1, h2⟩]
    exact hfl _ _
  · rename_i s col c h1 h2
    unfold npSetColumn
    rw [if_pos ⟨h1, h2⟩]
    exact hfl _ _
  · rename_i s col c i h1 h2
    unfold npSetColumnIntensity
    rw [if_pos ⟨h1, h2⟩]
    exact hfl _ _
  · unfold npSetBorder; exact hfl _ _
  · unfold npSetDiagonal; exact hfl _ _
  · unfold npFill; exact hfl _ _
  · unfold npFillRGBRaw; exact hfl _ _
  · unfold npFillIntensity; exact hfl _ _
  · unfold npSetMatrixWithIntensity; exact hfl _ _

/-- Witness for C4 at the cleared state and row 2. -/
theorem C4_witness :
    (0 : Int) ≤ 2 ∧ (2 : Int) < 5 ∧
      (npSetRow initState 2 ⟨80, 30, 20⟩).2 =
        [npWrite (npSetRow initState 2 ⟨80, 30, 20⟩).1.leds] :=
  ⟨by decide, by decide,
    C4_flush_policy.2.2.2.1 initState 2 ⟨80, 30, 20⟩ (by decide) (by decide)⟩

lemma clampIntensity_idem (i : ℚ) :
    clampIntensity (clampIntensity i) = clampIntensity i := by
  unfold clampIntensity
  split_ifs <;> first | rfl | linarith

lemma clampIntensity_zero : clampIntensity 0 = 0 := by
  unfold clampIntensity
  norm_num

lemma clampIntensity_one : clampIntensity 1 = 1 := by
  unfold clampIntensity
  norm_num

lemma scaleChannel_zero (v : Nat) : scaleChannel v 0 = 0 := by
  simp [scaleChannel]

lemma scaleChannel_one (v : Nat) : scaleChannel v 1 = v := by
  simp [scaleChannel]

lemma scaleColor_zero (c : npColor) : scaleColor c 0 = ⟨0, 0, 0⟩ := by
  simp [scaleColor, scaleChannel_zero]

lemma scaleColor_one (c : npColor) : scaleColor c 1 = c := by
  cases c
  simp [scaleColor, scaleChannel_one]

lemma processColor_zero (cfg : ColorCorrectionConfig) (gt : Nat → Nat)
    (built : Bool) (h0 : gt 0 = 0) :
    processColor cfg gt built 0 0 0 = ⟨0, 0, 0⟩ := by
  have hn : noiseFilter cfg ⟨0, 0, 0⟩ = ⟨0, 0, 0⟩ := by
    unfold noiseFilter noiseCh
    dsimp only
    split_ifs <;> rfl
  have hp : purify cfg ⟨0, 0, 0⟩ = ⟨0, 0, 0⟩ := by
    unfold purify purifyCore whiteSnap maxValRG minValRGB
    dsimp only
    split_ifs <;> first | rfl | simp_all
  have hg : applyGamma cfg gt built 0 = 0 := by
    unfold applyGamma
    split_ifs <;> first | exact h0 | rfl
  unfold processColor
  dsimp only
  rw [hn, hp]
  dsimp only
  rw [hg]

/-- Claim C8: every intensity-taking primitive clamps the intensity to
[0, 1] and scales each input channel by it with truncating multiplication
before correction (so the intensity variant coincides with the plain
variant applied to the pre-scaled color); intensity 0 stores (0, 0, 0) in
the affected slot (given the gamma-table invariant LUT 0 = 0), and
intensity 1 yields exactly the result of the primitive without intensity. -/
theorem C8_intensity_pipeline :
    (∀ i : ℚ, 0 ≤ clampIntensity i ∧ clampIntensity i ≤ 1)
    ∧ (∀ i : ℚ, 0 ≤ i → i ≤ 1 → clampIntensity i = i)
    ∧ (∀ s x y c i, npSetLEDIntensity s x y c i
        = npSetLED s x y (scaleColor c (clampIntensity i)))
    ∧ (∀ s row c i, npSetRowIntensity s row c i
        = npSetRow s row (scaleColor c (clampIntensity i)))
    ∧ (∀ s col c i, npSetColumnIntensity s col c i
        = npSetColumn s col (scaleColor c (clampIntensity i)))
    ∧ (∀ s c i, npFillIntensity s c i
        = npFill s (scaleColor c (clampIntensity i)))
    ∧ (∀ s m i, npSetMatrixWithIntensity s m i
        = npSetMatrixWithIntensity s m (clampIntensity i))
    ∧ (∀ c : npColor, scaleColor c 0 = ⟨0, 0, 0⟩)
    ∧ (∀ cfg gt built, gt 0 = 0 → processColor cfg gt built 0 0 0 = ⟨0, 0, 0⟩)
    ∧ (∀ s x y c, npIsPositionValid x y → s.leds.length = 25 →
        s.gammaTable 0 = 0 →
        ((npSetLEDIntensity s x y c 0).1.leds).getD
          (getIndex x y).toNat ⟨0, 0, 0⟩ = ⟨0, 0, 0⟩)
    ∧ (∀ s x y c, npSetLEDIntensity s x y c 1 = npSetLED s x y c)
    ∧ (∀ s row c, npSetRowIntensity s row c 1 = npSetRow s row c)
    ∧ (∀ s col c, npSetColumnIntensity s col c 1 = npSetColumn s col c)
    ∧ (∀ s c, npFillIntensity s c 1 = npFill s c) := by
  have hled : ∀ s x y c i, npSetLEDIntensity s x y c i
      = npSetLED s x y (scaleColor c (clampIntensity i)) := fun _ _ _ _ _ => rfl
  have hrow : ∀ s row c i, npSetRowIntensity s row c i
      = npSetRow s row (scaleColor c (clampIntensity i)) := fun _ _ _ _ => rfl
  have hcol : ∀ s col c i, npSetColumnIntensity s col c i
      = npSetColumn s col (scaleColor c (clampIntensity i)) := fun _ _ _ _ => rfl
  have hfill : ∀ s c i, npFillIntensity s c i
      = npFill s (scaleColor c (clampIntensity i)) := fun _ _ _ => rfl
  refine ⟨?_, ?_, hled, hrow, hcol, hfill, ?_, scaleColor_zero, processColor_zero,
    ?_, ?_, ?_, ?_, ?_⟩
  · intro i
    unfold clampIntensity
    split_ifs <;> constructor <;> linarith
  · intro i h1 h2
    unfold clampIntensity
    split_ifs <;> first | rfl | linarith
  · intro s m i
    simp only [npSetMatrixWithIntensity, clampIntensity_idem]
  · intro s x y c hv hlen h0
    rw [hled s x y c 0, clampIntensity_zero, scaleColor_zero]
    unfold npSetLED
    rw [if_pos hv]
    have hb : (getIndex x y).toNat < s.leds.length := by
      rw [hlen]; exact getIndex_toNat_lt x y hv
    simp [writeSlot, List.getD_eq_getElem?_getD, List.getElem?_set_self hb,
      processColor_zero s.config s.gammaTable s.gammaTableBuilt h0]
  · intro s x y c
    rw [hled s x y c 1, clampIntensity_one, scaleColor_one]
  · intro s row c
    rw [hrow s row c 1, clampIntensity_one, scaleColor_one]
  · intro s col c
    rw [hcol s col c 1, clampIntensity_one, scaleColor_one]
  · intro s c
    rw [hfill s c 1, clampIntensity_one, scaleColor_one]

/-- Witness for C8: at the cleared state, intensity 0 at coordinate (2, 2)
stores (0, 0, 0). -/
theorem C8_witness :
    npIsPositionValid 2 2 ∧ initState.leds.length = 25 ∧
      initState.gammaTable 0 = 0 ∧
      ((npSetLEDIntensity initState 2 2 ⟨200, 100, 50⟩ 0).1.leds).getD
        (getIndex 2 2).toNat ⟨0, 0, 0⟩ = ⟨0, 0, 0⟩ :=
  ⟨by decide, by decide, by decide,
    C8_intensity_pipeline.2.2.2.2.2.2.2.2.2.1 initState 2 2 ⟨200, 100, 50⟩
      (by decide) (by decide) (by decide)⟩

lemma npWrite_cons (a : npLED) (t : List npLED) :
    npWrite (a :: t) = a.G :: a.R :: a.B :: npWrite t := rfl

lemma npWrite_length (l : List npLED) : (npWrite l).length = 3 * l.length := by
  induction l with
  | nil => rfl
  | cons a t ih =>
    rw [npWrite_cons]
    simp only [List.length_cons, ih]
    omega

lemma npWrite_getD (l : List npLED) : ∀ i : Nat, i < l.length →
    (npWrite l).getD (3 * i) 0 = (l.getD i ⟨0, 0, 0⟩).G
    ∧ (npWrite l).getD (3 * i + 1) 0 = (l.getD i ⟨0, 0, 0⟩).R
    ∧ (npWrite l).getD (3 * i + 2) 0 = (l.getD i ⟨0, 0, 0⟩).B := by
  induction l with
  | nil => intro i hi; simp at hi
  | cons a t ih =>
    intro i hi
    cases i with
    | zero => exact ⟨rfl, rfl, rfl⟩
    | succ n =>
      have e0 : 3 * (n + 1) = 3 * n + 1 + 1 + 1 := by ring
      have e1 : 3 * (n + 1) + 1 = (3 * n + 1) + 1 + 1 + 1 := by ring
      have e2 : 3 * (n + 1) + 2 = (3 * n + 2) + 1 + 1 + 1 := by ring
      have hn : n < t.length := by
        simp only [List.length_cons] at hi
        omega
      simp only [npWrite_cons, e0, e1, e2, List.getD_cons_succ]
      exact ih n hn

/-- Claim C9: the flush byte stream of a 25-slot buffer has exactly
75 bytes, and for every slot i the bytes at positions 3i, 3i+1, 3i+2 are
that slot's G, R and B bytes — so the stream is slot0.G, slot0.R, slot0.B,
slot1.G, ..., slot24.B, one LED's three bytes completed before the next
LED's bytes begin. -/
theorem C9_flush_byte_order (leds : List npLED) (hlen : leds.length = 25) :
    (npWrite leds).length = 75
    ∧ ∀ i : Nat, i < 25 →
        (npWrite leds).getD (3 * i) 0 = (leds.getD i ⟨0, 0, 0⟩).G
        ∧ (npWrite leds).getD (3 * i + 1) 0 = (leds.getD i ⟨0, 0, 0⟩).R
        ∧ (npWrite leds).getD (3 * i + 2) 0 = (leds.getD i ⟨0, 0, 0⟩).B := by
  constructor
  · rw [npWrite_length, hlen]
  · intro i hi
    exact npWrite_getD leds i (by omega)

/-- Witness for C9 at the cleared buffer and slot 4. -/
theorem C9_witness :
    initState.leds.length = 25 ∧
      (npWrite initState.leds).length = 75 ∧
      (npWrite initState.leds).getD (3 * 4) 0 =
        (initState.leds.getD 4 ⟨0, 0, 0⟩).G :=
  ⟨by decide, (C9_flush_byte_order initState.leds (by decide)).1,
    ((C9_flush_byte_order initState.leds (by decide)).2 4 (by decide)).1⟩

/-- Claim C10: at a valid coordinate, each single-pixel primitive changes
at most the slot `getIndex x y`: every other position of the buffer reads
back unchanged, and the configuration, gamma table and its flag are left
untouched. -/
theorem C10_single_pixel_isolation (s : MatrixState) (x y : Int)
    (hv : npIsPositionValid x y) (c : npColor) (i : ℚ) (j : Nat)
    (hj : j ≠ (getIndex x y).toNat) :
    (((npSetLED s x y c).1.leds).getD j ⟨0, 0, 0⟩ = s.leds.getD j ⟨0, 0, 0⟩)
    ∧ (((npSetLEDRaw s x y c).1.leds).getD j ⟨0, 0, 0⟩ =
        s.leds.getD j ⟨0, 0, 0⟩)
    ∧ (((npSetLEDIntensity s x y c i).1.leds).getD j ⟨0, 0, 0⟩ =
        s.leds.getD j ⟨0, 0, 0⟩)
    ∧ (npSetLED s x y c).1.config = s.config
    ∧ (npSetLEDRaw s x y c).1.config = s.config
    ∧ (npSetLEDIntensity s x y c i).1.config = s.config
    ∧ (npSetLED s x y c).1.gammaTable = s.gammaTable
    ∧ (npSetLEDRaw s x y c).1.gammaTable = s.gammaTable
    ∧ (npSetLEDIntensity s x y c i).1.gammaTable = s.gammaTable
    ∧ (npSetLED s x y c).1.gammaTableBuilt = s.gammaTableBuilt
    ∧ (npSetLEDRaw s x y c).1.gammaTableBuilt = s.gammaTableBuilt
    ∧ (npSetLEDIntensity s x y c i).1.gammaTableBuilt = s.gammaTableBuilt := by
  have hgw : ∀ p : npColor,
      (writeSlot s.leds (getIndex x y).toNat p).getD j ⟨0, 0, 0⟩ =
        s.leds.getD j ⟨0, 0, 0⟩ := by
    intro p
    simp [writeSlot, List.getD_eq_getElem?_getD,
      List.getElem?_set_ne (Ne.symm hj)]
  unfold npSetLED npSetLEDRaw npSetLEDIntensity
  rw [if_pos hv, if_pos hv, if_pos hv]
  exact ⟨hgw _, hgw _, hgw _, rfl, rfl, rfl, rfl, rfl, rfl, rfl, rfl, rfl⟩

/-- Witness for C10 at the cleared state, coordinate (1, 1), slot 0. -/
theorem C10_witness :
    npIsPositionValid 1 1 ∧ (0 : Nat) ≠ (getIndex 1 1).toNat ∧
      ((npSetLED initState 1 1 ⟨5, 5, 5⟩).1.leds).getD 0 ⟨0, 0, 0⟩ =
        initState.leds.getD 0 ⟨0, 0, 0⟩ :=
  ⟨by decide, by decide,
    (C10_single_pixel_isolation initState 1 1 (by decide) ⟨5, 5, 5⟩ 1 0
      (by decide)).1⟩
